import Mathlib

/-!
Verification development for the PMSIS I2S driver API
(src/include/pmsis/drivers/i2s.h).

The repository ships the public header only, so the option/format
constants, the structure layouts and the declared operation signatures
are transcribed directly from the header, while the behavioural core
(buffer pool, completion dispatcher, transfer state machine,
configuration validator) is modelled from the specification, as noted
on each such definition.
-/

namespace PmsisI2s

/-! ## Constants transcribed from i2s.h -/

/-- `#define PI_I2S_FMT_DATA_FORMAT_SHIFT 0` -/
def PI_I2S_FMT_DATA_FORMAT_SHIFT : Nat := 0

/-- `#define PI_I2S_FMT_DATA_FORMAT_MASK (0x7 << PI_I2S_FMT_DATA_FORMAT_SHIFT)` -/
def PI_I2S_FMT_DATA_FORMAT_MASK : Nat := 0x7 <<< PI_I2S_FMT_DATA_FORMAT_SHIFT

/-- `#define PI_I2S_FMT_DATA_FORMAT_I2S (0 << PI_I2S_FMT_DATA_FORMAT_SHIFT)` -/
def PI_I2S_FMT_DATA_FORMAT_I2S : Nat := 0 <<< PI_I2S_FMT_DATA_FORMAT_SHIFT

/-- `#define PI_I2S_FMT_DATA_FORMAT_PDM (1 << PI_I2S_FMT_DATA_FORMAT_SHIFT)` -/
def PI_I2S_FMT_DATA_FORMAT_PDM : Nat := 1 <<< PI_I2S_FMT_DATA_FORMAT_SHIFT

/-- `#define PI_I2S_OPT_MEM_SLAB (1 << 0)` -/
def PI_I2S_OPT_MEM_SLAB : Nat := 1 <<< 0

/-- `#define PI_I2S_OPT_PINGPONG (0 << 0)` -/
def PI_I2S_OPT_PINGPONG : Nat := 0 <<< 0

/-- `#define PI_I2S_OPT_TDM (1 << 1)` -/
def PI_I2S_OPT_TDM : Nat := 1 <<< 1

/-- `#define PI_I2S_CH_FMT_DATA_ORDER_SHIFT 0` -/
def PI_I2S_CH_FMT_DATA_ORDER_SHIFT : Nat := 0

/-- `#define PI_I2S_CH_FMT_DATA_ORDER_MASK (1 << 0)` -/
def PI_I2S_CH_FMT_DATA_ORDER_MASK : Nat := 1 <<< 0

/-- `#define PI_I2S_CH_FMT_DATA_ALIGN_SHIFT 1` -/
def PI_I2S_CH_FMT_DATA_ALIGN_SHIFT : Nat := 1

/-- `#define PI_I2S_CH_FMT_DATA_ALIGN_MASK (1 << 1)` -/
def PI_I2S_CH_FMT_DATA_ALIGN_MASK : Nat := 1 <<< 1

/-- `#define PI_I2S_CH_FMT_DATA_SIGN_SHIFT 2` -/
def PI_I2S_CH_FMT_DATA_SIGN_SHIFT : Nat := 2

/-- `#define PI_I2S_CH_FMT_DATA_SIGN_MASK (1 << 2)` -/
def PI_I2S_CH_FMT_DATA_SIGN_MASK : Nat := 1 <<< 2

/-- `#define PI_I2S_CH_FMT_DATA_ORDER_MSB (0 << 0)` -/
def PI_I2S_CH_FMT_DATA_ORDER_MSB : Nat := 0 <<< 0

/-- `#define PI_I2S_CH_FMT_DATA_ORDER_LSB (1 << 0)` -/
def PI_I2S_CH_FMT_DATA_ORDER_LSB : Nat := 1 <<< 0

/-- `#define PI_I2S_CH_FMT_DATA_ALIGN_LEFT (0 << 1)` -/
def PI_I2S_CH_FMT_DATA_ALIGN_LEFT : Nat := 0 <<< 1

/-- `#define PI_I2S_CH_FMT_DATA_ALIGN_RIGHT (1 << 1)` -/
def PI_I2S_CH_FMT_DATA_ALIGN_RIGHT : Nat := 1 <<< 1

/-- `#define PI_I2S_CH_FMT_DATA_SIGN_NO_EXTEND (0 << 2)` -/
def PI_I2S_CH_FMT_DATA_SIGN_NO_EXTEND : Nat := 0 <<< 2

/-- `#define PI_I2S_CH_FMT_DATA_SIGN_EXTEND (1 << 2)` -/
def PI_I2S_CH_FMT_DATA_SIGN_EXTEND : Nat := 1 <<< 2

/-- `#define PI_I2S_CH_OPT_MEM_SLAB (1 << 0)` -/
def PI_I2S_CH_OPT_MEM_SLAB : Nat := 1 <<< 0

/-- `#define PI_I2S_CH_OPT_PINGPONG (0 << 0)` -/
def PI_I2S_CH_OPT_PINGPONG : Nat := 0 <<< 0

/-- `#define PI_I2S_SETUP_SINGLE_CLOCK (1<<0)` -/
def PI_I2S_SETUP_SINGLE_CLOCK : Nat := 1 <<< 0

/-! ## Mode selection predicates over an options byte

The buffer mode of a device is selected by the bit position of
`PI_I2S_OPT_MEM_SLAB` in the `options` field; `PI_I2S_OPT_PINGPONG`
is the value 0 at that same position. -/

/-- The options byte selects mem-slab buffer mode: the bit carrying
`PI_I2S_OPT_MEM_SLAB` is set. -/
def optIsSlab (o : Nat) : Prop :=
  o &&& PI_I2S_OPT_MEM_SLAB = PI_I2S_OPT_MEM_SLAB

/-- The options byte selects ping-pong buffer mode: the bit carrying
`PI_I2S_OPT_MEM_SLAB` holds the value `PI_I2S_OPT_PINGPONG` (0). -/
def optIsPingpong (o : Nat) : Prop :=
  o &&& PI_I2S_OPT_MEM_SLAB = PI_I2S_OPT_PINGPONG

/-- The options byte selects TDM multiplexing. -/
def optIsTdm (o : Nat) : Prop :=
  o &&& PI_I2S_OPT_TDM = PI_I2S_OPT_TDM

/-- Per-channel options: slab mode selected. -/
def chOptIsSlab (o : Nat) : Prop :=
  o &&& PI_I2S_CH_OPT_MEM_SLAB = PI_I2S_CH_OPT_MEM_SLAB

/-- Per-channel options: ping-pong mode selected. -/
def chOptIsPingpong (o : Nat) : Prop :=
  o &&& PI_I2S_CH_OPT_MEM_SLAB = PI_I2S_CH_OPT_PINGPONG

instance (o : Nat) : Decidable (optIsSlab o) := by unfold optIsSlab; infer_instance

instance (o : Nat) : Decidable (optIsPingpong o) := by unfold optIsPingpong; infer_instance

instance (o : Nat) : Decidable (optIsTdm o) := by unfold optIsTdm; infer_instance

instance (o : Nat) : Decidable (chOptIsSlab o) := by unfold chOptIsSlab; infer_instance

instance (o : Nat) : Decidable (chOptIsPingpong o) := by unfold chOptIsPingpong; infer_instance

/-! ## Declared operation signatures (transcribed from the header) -/

/-- The C return type of a declared API function. -/
inductive CRet where
  | int
  | void
deriving DecidableEq

/-- The operations declared by the header. -/
inductive ApiOp where
  | setup
  | confInit
  | devOpen
  | devClose
  | ioctl
  | read
  | readAsync
  | channelRead
  | channelReadAsync
  | readStatus
deriving DecidableEq

/-- Return type of each declared function, transcribed from i2s.h:
`void pi_i2s_setup`, `void pi_i2s_conf_init`, `int pi_i2s_open`,
`void pi_i2s_close`, `int pi_i2s_ioctl`, `int pi_i2s_read`,
`int pi_i2s_read_async`, `int pi_i2s_channel_read`,
`int pi_i2s_channel_read_async`, `int pi_i2s_read_status`. -/
def retType : ApiOp → CRet
  | .setup => .void
  | .confInit => .void
  | .devOpen => .int
  | .devClose => .void
  | .ioctl => .int
  | .read => .int
  | .readAsync => .int
  | .channelRead => .int
  | .channelReadAsync => .int
  | .readStatus => .int

/-- Documented (success, error) return codes of each declared function,
transcribed from the header doc comments: `pi_i2s_open` documents
"0 if the operation is successfull, -1 if there was an error"; the
read family and `pi_i2s_read_status` document "0 If successful, -1 if
not"; `pi_i2s_setup`, `pi_i2s_conf_init` and `pi_i2s_close` return
void; `pi_i2s_ioctl` returns int but documents no codes. -/
def docCodes : ApiOp → Option (Int × Int)
  | .setup => none
  | .confInit => none
  | .devOpen => some (0, -1)
  | .devClose => none
  | .ioctl => none
  | .read => some (0, -1)
  | .readAsync => some (0, -1)
  | .channelRead => some (0, -1)
  | .channelReadAsync => some (0, -1)
  | .readStatus => some (0, -1)

/-! ## Buffer lifecycle model (spec section 3, Buffer)

Modelled from the spec: the implementation of the Buffer Pool is not
part of the header-only repository; the states and transitions below
follow the specification text. -/

/-- Buffer ownership state: Free, ArmedForHardware, Ready, Draining. -/
inductive BufState where
  | free
  | armed
  | ready
  | draining
deriving DecidableEq

/-- Modelled from the spec: the ping-pong Buffer Pool of section 4.1,
missing from the header-only repository. Two fixed slots, each with a
lifecycle state; `turn` is the next slot to hand to hardware in the
strict ping/pong rotation. `armTrace` records, oldest first, every slot
handed to hardware; `armCount`/`relCount` count arm and release events
per slot. -/
structure PingPongPool where
  slot : Fin 2 → BufState
  turn : Fin 2
  armTrace : List (Fin 2)
  armCount : Fin 2 → Nat
  relCount : Fin 2 → Nat

/-- The pool as configured at open time: both slots Free, slot 0 first. -/
def PingPongPool.init : PingPongPool :=
  { slot := fun _ => .free
    turn := 0
    armTrace := []
    armCount := fun _ => 0
    relCount := fun _ => 0 }

/-- Hand the slot whose turn it is to hardware: Free → ArmedForHardware,
record the event, advance the ping/pong rotation. -/
def PingPongPool.armTurn (p : PingPongPool) : PingPongPool :=
  { slot := Function.update p.slot p.turn .armed
    turn := ⟨1 - p.turn.val, by omega⟩
    armTrace := p.armTrace ++ [p.turn]
    armCount := Function.update p.armCount p.turn (p.armCount p.turn + 1)
    relCount := p.relCount }

/-- `acquire_for_hardware()`: returns the next Free buffer in the strict
ping/pong rotation; if the slot whose turn it is is not Free the pool is
exhausted and the state is unchanged (`PoolExhausted`). -/
def PingPongPool.acquireForHardware (p : PingPongPool) : PingPongPool :=
  if p.slot p.turn = .free then p.armTurn else p

/-- `mark_ready(buffer)`: ArmedForHardware → Ready on a hardware
completion event; no-op otherwise. -/
def PingPongPool.markReady (p : PingPongPool) (i : Fin 2) : PingPongPool :=
  if p.slot i = .armed then { p with slot := Function.update p.slot i .ready } else p

/-- `take_ready()`: Ready → Draining, handing the buffer to a consumer;
no-op when the slot is not Ready (`NoneReady`). -/
def PingPongPool.takeReady (p : PingPongPool) (i : Fin 2) : PingPongPool :=
  if p.slot i = .ready then { p with slot := Function.update p.slot i .draining } else p

/-- Immediate re-arm after a ping-pong release: the freed slot is handed
back to hardware at once when it is its turn in the rotation; a slot
released out of turn stays Free until the rotation reaches it. -/
def PingPongPool.rearm (p : PingPongPool) (i : Fin 2) : PingPongPool :=
  if i = p.turn then p.armTurn else p

/-- `release(buffer)` in ping-pong mode: Draining → Free followed by the
immediate re-arm, enforcing the alternation invariant even under
concurrent release ordering (spec section 4.1). -/
def PingPongPool.release (p : PingPongPool) (i : Fin 2) : PingPongPool :=
  if p.slot i = .draining then
    PingPongPool.rearm
      { p with slot := Function.update p.slot i .free
               relCount := Function.update p.relCount i (p.relCount i + 1) } i
  else p

/-- An operation on the ping-pong pool. -/
inductive PoolOp where
  | acquire
  | markReady (i : Fin 2)
  | takeReady (i : Fin 2)
  | release (i : Fin 2)

/-- Apply one pool operation. -/
def PingPongPool.step (p : PingPongPool) : PoolOp → PingPongPool
  | .acquire => p.acquireForHardware
  | .markReady i => p.markReady i
  | .takeReady i => p.takeReady i
  | .release i => p.release i

/-- Apply a sequence of pool operations, oldest first. -/
def PingPongPool.run (p : PingPongPool) (ops : List PoolOp) : PingPongPool :=
  ops.foldl PingPongPool.step p

/-- The strictly alternating slot sequence 0, 1, 0, 1, … of length `n`. -/
def altSeq (n : Nat) : List (Fin 2) :=
  (List.range n).map (fun k => ⟨k % 2, by omega⟩)

/-- Occurrences of slot `i` in a trace. -/
def countSlot (i : Fin 2) (l : List (Fin 2)) : Nat :=
  (l.filter (fun j => j = i)).length

/-- Reachability invariant of the ping-pong pool: the arm trace is the
strict alternation, the rotation pointer matches the trace parity, the
per-slot arm counters match the trace, and each slot has been armed
exactly once more than released unless it is Free. -/
structure PoolInv (p : PingPongPool) : Prop where
  trace_alt : p.armTrace = altSeq p.armTrace.length
  turn_eq : p.turn.val = p.armTrace.length % 2
  count_eq : ∀ i, countSlot i p.armTrace = p.armCount i
  slot_free : ∀ i, p.slot i = BufState.free → p.armCount i = p.relCount i
  slot_busy : ∀ i, p.slot i ≠ BufState.free → p.armCount i = p.relCount i + 1

/-! ## Channel Context asynchronous read path (spec sections 4.2, 4.4, 5)

Modelled from the spec: the Channel Context and Completion Dispatcher
implementations are not part of the header-only repository. -/

/-- Outcome of a Notification Request. -/
inductive Resolution where
  | success (buf : Nat)
  | deviceClosed
deriving DecidableEq

/-- Modelled from the spec: one channel's asynchronous read state.
`readyBufs` holds Ready buffer descriptors oldest first, `pending` the
queued Notification Request ids oldest first (FIFO), `resolved` the
resolved requests with their outcomes in resolution order, and `issued`
every request id in issue order. -/
structure Channel where
  readyBufs : List Nat
  pending : List Nat
  resolved : List (Nat × Resolution)
  issued : List Nat

/-- A channel with no buffers ready and no requests outstanding. -/
def Channel.init : Channel :=
  { readyBufs := [], pending := [], resolved := [], issued := [] }

/-- `read_async` / `channel_read_async`: never suspends; resolves
immediately with the oldest Ready buffer when one is present and no
earlier request is still queued, otherwise enqueues the request (FIFO
per channel). -/
def Channel.readAsync (c : Channel) (r : Nat) : Channel :=
  if c.pending = [] then
    match c.readyBufs with
    | b :: bs =>
      { c with readyBufs := bs
               resolved := c.resolved ++ [(r, Resolution.success b)]
               issued := c.issued ++ [r] }
    | [] =>
      { c with pending := c.pending ++ [r]
               issued := c.issued ++ [r] }
  else
    { c with pending := c.pending ++ [r]
             issued := c.issued ++ [r] }

/-- A hardware completion event for this channel (Completion
Dispatcher, section 4.4): `mark_ready` the completed buffer, then, if
the Notification Request queue is non-empty, pop the oldest request,
`take_ready` the oldest Ready buffer and resolve the request with it;
if the queue is empty the buffer simply remains Ready. -/
def Channel.completion (c : Channel) (b : Nat) : Channel :=
  match c.pending with
  | [] => { c with readyBufs := c.readyBufs ++ [b] }
  | r :: rest =>
    match c.readyBufs with
    | [] =>
      { c with pending := rest
               resolved := c.resolved ++ [(r, Resolution.success b)] }
    | b0 :: bs =>
      { c with readyBufs := bs ++ [b]
               pending := rest
               resolved := c.resolved ++ [(r, Resolution.success b0)] }

/-- An event on one channel's asynchronous read path. -/
inductive ChanOp where
  | readAsync (r : Nat)
  | completion (b : Nat)

/-- Apply one channel event. -/
def Channel.step (c : Channel) : ChanOp → Channel
  | .readAsync r => c.readAsync r
  | .completion b => c.completion b

/-- Apply a sequence of channel events, oldest first. -/
def Channel.run (c : Channel) (ops : List ChanOp) : Channel :=
  ops.foldl Channel.step c

/-! ## Transfer State Machine (spec sections 3, 4.3)

Modelled from the spec: the Transfer State Machine implementation is
not part of the header-only repository. -/

/-- Device transfer state: Idle, Running, StoppingRequested. -/
inductive DevState where
  | idle
  | running
  | stoppingRequested
deriving DecidableEq

/-- Modelled from the spec: the per-device Transfer State Machine of
section 4.3. `pos` is the rotation index of the next buffer to arm,
`nbuf` the number of buffers in rotation, `inflight` the buffer index
currently owned by hardware, `delivered` the (buffer index, byte count)
blocks delivered in order, `blockSize` the configured block size and
`configured` whether a channel configuration has been validated. -/
structure Device where
  st : DevState
  pos : Nat
  nbuf : Nat
  inflight : Option Nat
  delivered : List (Nat × Nat)
  blockSize : Nat
  configured : Bool
deriving DecidableEq

/-- `start()` (PI_I2S_IOCTL_START): from Idle with a validated
configuration, arms the buffer at the current rotation position and
transitions to Running; from Running it is a no-op (idempotent); without
a validated configuration it fails (`NotConfigured`, state unchanged). -/
def Device.start (d : Device) : Device :=
  match d.st with
  | .idle =>
    if d.configured then
      { d with st := .running
               inflight := some d.pos
               pos := (d.pos + 1) % d.nbuf }
    else d
  | .running => d
  | .stoppingRequested => d

/-- `stop()` (PI_I2S_IOCTL_STOP): from Running, issues the hardware
"stop after current block" command and transitions to
StoppingRequested; the in-flight block keeps transferring. From Idle it
is a no-op. -/
def Device.stop (d : Device) : Device :=
  match d.st with
  | .running => { d with st := .stoppingRequested }
  | _ => d

/-- A hardware block-completion event observed by the Completion
Dispatcher: the in-flight block is delivered in full (`blockSize`
bytes); while Running the next buffer in rotation is armed; in
StoppingRequested the interface stops and the state becomes Idle. -/
def Device.completion (d : Device) : Device :=
  match d.inflight with
  | none => d
  | some b =>
    match d.st with
    | .running =>
      { d with delivered := d.delivered ++ [(b, d.blockSize)]
               inflight := some d.pos
               pos := (d.pos + 1) % d.nbuf }
    | .stoppingRequested =>
      { d with delivered := d.delivered ++ [(b, d.blockSize)]
               inflight := none
               st := .idle }
    | .idle => d

/-- A state-machine event. -/
inductive DevOp where
  | start
  | stop
  | completion
deriving DecidableEq

/-- Apply one state-machine event. -/
def Device.stepOp (d : Device) : DevOp → Device
  | .start => d.start
  | .stop => d.stop
  | .completion => d.completion

/-- A configured device that is Running with buffer 0 in flight and
buffer 1 next in rotation, used to instantiate the theorems. -/
def devRunningEx : Device :=
  { st := .running, pos := 1, nbuf := 2, inflight := some 0,
    delivered := [], blockSize := 64, configured := true }

/-- An Idle configured device, used to instantiate the theorems. -/
def devIdleEx : Device :=
  { st := .idle, pos := 0, nbuf := 2, inflight := none,
    delivered := [], blockSize := 64, configured := true }

/-! ## Configuration Validator (spec section 4.5) and open/close -/

/-- Bytes occupied by one data word (header: a 16 bit word occupies 2
bytes, a 24 or 32 bit word occupies 4 bytes). -/
def wordBytes (wordSize : Nat) : Nat :=
  if wordSize ≤ 8 then 1 else if wordSize ≤ 16 then 2 else 4

/-- Frame size in bytes: channels × word-size-in-bytes. -/
def frameSize (channels wordSize : Nat) : Nat :=
  channels * wordBytes wordSize

/-- Modelled from the spec: the device configuration of
`struct pi_i2s_conf`, with the slab block addresses and the two
ping-pong buffer addresses carried explicitly so the validator's
checks are statable. -/
structure Conf where
  word_size : Nat
  channels : Nat
  itf : Nat
  format : Nat
  options : Nat
  frame_clk_freq : Nat
  block_size : Nat
  slab_addrs : List Nat
  pingpong_buffers : Nat × Nat
deriving DecidableEq

/-- Frame size of a configuration. -/
def Conf.frame (c : Conf) : Nat :=
  frameSize c.channels c.word_size

/-- The buffer addresses the selected buffer mode hands to hardware:
the slab blocks in slab mode, the ping-pong pair otherwise. -/
def Conf.bufAddrs (c : Conf) : List Nat :=
  if optIsSlab c.options then c.slab_addrs
  else [c.pingpong_buffers.1, c.pingpong_buffers.2]

/-- Validation failures surfaced at open time (spec section 7). -/
inductive ValErr where
  | nonMultipleBlockSize
  | insufficientSlabBlocks
  | misalignedBuffer
deriving DecidableEq

/-- Modelled from the spec: the Configuration Validator of section 4.5,
missing from the header-only repository. Checks, in the order the spec
lists them: block-size positivity and frame-size divisibility, slab
block-count sufficiency (at least 2 per queue), and 4-byte alignment of
every buffer address. -/
def validate (c : Conf) : Except ValErr Unit :=
  if ¬ (0 < c.block_size ∧ c.block_size % c.frame = 0) then
    .error .nonMultipleBlockSize
  else if optIsSlab c.options ∧ c.slab_addrs.length < 2 then
    .error .insufficientSlabBlocks
  else if ¬ (∀ a ∈ c.bufAddrs, a % 4 = 0) then
    .error .misalignedBuffer
  else
    .ok ()

/-- The driver-internal state allocated by a successful open: the
validated configuration, an Idle Transfer State Machine and an empty
Channel Context. -/
structure OpenState where
  conf : Conf
  dev : Device
  chan : Channel

/-- The state allocated for a validated configuration. -/
def mkState (c : Conf) : OpenState :=
  { conf := c
    dev :=
      { st := .idle, pos := 0
        nbuf := if optIsSlab c.options then c.slab_addrs.length else 2
        inflight := none, delivered := [], blockSize := c.block_size
        configured := true }
    chan := Channel.init }

/-- `pi_i2s_open`, modelled from the spec: runs the Configuration
Validator and allocates the driver state only when validation passes;
on failure it returns the error and no state. -/
def pi_i2s_open (c : Conf) : Except ValErr OpenState :=
  match validate c with
  | .error e => .error e
  | .ok _ => .ok (mkState c)

/-- Resolve queued Notification Requests one at a time with the
DeviceClosed error, oldest first. -/
def resolveLoop (res : List (Nat × Resolution)) : List Nat → List (Nat × Resolution)
  | [] => res
  | r :: rest => resolveLoop (res ++ [(r, Resolution.deviceClosed)]) rest

/-- `pi_i2s_close`, modelled from the spec (section 5, Cancellation):
first stop and wait for the in-flight block to complete or be discarded
by the backend, then resolve every still-queued Notification Request
with DeviceClosed, then release all Buffer Pool state. -/
def pi_i2s_close (s : OpenState) : OpenState :=
  { s with
    dev := { s.dev with st := .idle, inflight := none }
    chan :=
      { s.chan with
        pending := []
        resolved := resolveLoop s.chan.resolved s.chan.pending
        readyBufs := [] } }

/-- An open device with two queued Notification Requests and one Ready
buffer, used to instantiate the close theorem. -/
def openStateEx : OpenState :=
  { conf :=
      { word_size := 16, channels := 2, itf := 0, format := 0, options := 0
        frame_clk_freq := 44100, block_size := 64, slab_addrs := []
        pingpong_buffers := (0x1000, 0x1040) }
    dev := devRunningEx
    chan := { readyBufs := [7], pending := [5, 6], resolved := [], issued := [5, 6] } }

/-- A configuration that passes validation: ping-pong mode, 16-bit
words, 2 channels, 64-byte blocks, aligned buffers. -/
def confOkEx : Conf :=
  { word_size := 16, channels := 2, itf := 0, format := 0, options := 0
    frame_clk_freq := 44100, block_size := 64, slab_addrs := []
    pingpong_buffers := (0x1000, 0x1040) }

/-- A configuration whose block size 33 is not a multiple of the 4-byte
frame size. -/
def confBadBlockEx : Conf :=
  { word_size := 16, channels := 2, itf := 0, format := 0, options := 0
    frame_clk_freq := 44100, block_size := 33, slab_addrs := []
    pingpong_buffers := (0x1000, 0x1040) }

/-- A configuration whose second ping-pong buffer address 0x1002 is not
4-byte aligned. -/
def confMisalignedEx : Conf :=
  { word_size := 16, channels := 2, itf := 0, format := 0, options := 0
    frame_clk_freq := 44100, block_size := 64, slab_addrs := []
    pingpong_buffers := (0x1000, 0x1002) }

/-- Pool operations used to instantiate the alternation theorem. -/
def poolOpsEx : List PoolOp :=
  [PoolOp.acquire, PoolOp.markReady 0, PoolOp.takeReady 0,
   PoolOp.release 0, PoolOp.acquire]

/-- Channel events used to instantiate the FIFO theorem. -/
def chanOpsEx : List ChanOp :=
  [ChanOp.readAsync 1, ChanOp.readAsync 2,
   ChanOp.completion 10, ChanOp.completion 11]

lemma countSlot_append (i : Fin 2) (l₁ l₂ : List (Fin 2)) :
    countSlot i (l₁ ++ l₂) = countSlot i l₁ + countSlot i l₂ := by
  simp [countSlot, List.filter_append]

lemma countSlot_singleton (i j : Fin 2) :
    countSlot i [j] = if j = i then 1 else 0 := by
  by_cases h : j = i <;> simp [countSlot, h]

lemma altSeq_succ (n : Nat) :
    altSeq (n + 1) = altSeq n ++ [⟨n % 2, by omega⟩] := by
  simp [altSeq, List.range_succ]

lemma armTurn_inv (p : PingPongPool) (hInv : PoolInv p)
    (hfree : p.slot p.turn = BufState.free) : PoolInv p.armTurn := by
  have hturn : p.turn = (⟨p.armTrace.length % 2, by omega⟩ : Fin 2) :=
    Fin.ext hInv.turn_eq
  constructor
  · show p.armTrace ++ [p.turn] = altSeq (p.armTrace ++ [p.turn]).length
    rw [List.length_append, List.length_singleton, altSeq_succ,
      ← hInv.trace_alt, hturn]
  · show (1 - p.turn.val) = (p.armTrace ++ [p.turn]).length % 2
    rw [List.length_append, List.length_singleton]
    have := hInv.turn_eq
    omega
  · intro i
    show countSlot i (p.armTrace ++ [p.turn]) =
      Function.update p.armCount p.turn (p.armCount p.turn + 1) i
    rw [countSlot_append, countSlot_singleton, hInv.count_eq i]
    by_cases h : i = p.turn
    · subst h; simp
    · have h2 : ¬ p.turn = i := fun hh => h hh.symm
      simp [Function.update_noteq h, h2]
  · intro i hf
    by_cases h : i = p.turn
    · rw [h] at hf
      have : Function.update p.slot p.turn BufState.armed p.turn = BufState.free := hf
      rw [Function.update_same] at this
      exact absurd this (by decide)
    · have hf' : p.slot i = BufState.free := by
        have : Function.update p.slot p.turn BufState.armed i = BufState.free := hf
        rwa [Function.update_noteq h] at this
      show Function.update p.armCount p.turn (p.armCount p.turn + 1) i = p.relCount i
      rw [Function.update_noteq h]
      exact hInv.slot_free i hf'
  · intro i hf
    by_cases h : i = p.turn
    · rw [h]
      show Function.update p.armCount p.turn (p.armCount p.turn + 1) p.turn =
        p.relCount p.turn + 1
      rw [Function.update_same, hInv.slot_free p.turn hfree]
    · have hf' : p.slot i ≠ BufState.free := by
        intro hfi
        refine hf ?_
        show Function.update p.slot p.turn BufState.armed i = BufState.free
        rwa [Function.update_noteq h]
      show Function.update p.armCount p.turn (p.armCount p.turn + 1) i = p.relCount i + 1
      rw [Function.update_noteq h]
      exact hInv.slot_busy i hf'

lemma rearm_inv (p : PingPongPool) (hInv : PoolInv p) (i : Fin 2)
    (hfree : p.slot i = BufState.free) : PoolInv (p.rearm i) := by
  unfold PingPongPool.rearm
  by_cases h : i = p.turn
  · rw [if_pos h]
    exact armTurn_inv p hInv (h ▸ hfree)
  · rw [if_neg h]
    exact hInv

lemma inv_update_busy (p : PingPongPool) (hInv : PoolInv p) (i : Fin 2) (v : BufState)
    (hold : p.slot i ≠ BufState.free) (hv : v ≠ BufState.free) :
    PoolInv { p with slot := Function.update p.slot i v } := by
  constructor
  · exact hInv.trace_alt
  · exact hInv.turn_eq
  · exact hInv.count_eq
  · intro j hj
    by_cases h : j = i
    · rw [h] at hj
      have hvj : Function.update p.slot i v i = BufState.free := hj
      rw [Function.update_same] at hvj
      exact absurd hvj hv
    · have hpj : p.slot j = BufState.free := by
        have hvj : Function.update p.slot i v j = BufState.free := hj
        rwa [Function.update_noteq h] at hvj
      exact hInv.slot_free j hpj
  · intro j hj
    by_cases h : j = i
    · rw [h]
      exact hInv.slot_busy i hold
    · refine hInv.slot_busy j ?_
      intro hjf
      refine hj ?_
      show Function.update p.slot i v j = BufState.free
      rwa [Function.update_noteq h]

lemma markReady_inv (p : PingPongPool) (hInv : PoolInv p) (i : Fin 2) :
    PoolInv (p.markReady i) := by
  unfold PingPongPool.markReady
  by_cases h : p.slot i = BufState.armed
  · rw [if_pos h]
    exact inv_update_busy p hInv i BufState.ready (by rw [h]; decide) (by decide)
  · rw [if_neg h]
    exact hInv

lemma takeReady_inv (p : PingPongPool) (hInv : PoolInv p) (i : Fin 2) :
    PoolInv (p.takeReady i) := by
  unfold PingPongPool.takeReady
  by_cases h : p.slot i = BufState.ready
  · rw [if_pos h]
    exact inv_update_busy p hInv i BufState.draining (by rw [h]; decide) (by decide)
  · rw [if_neg h]
    exact hInv

lemma release_inv (p : PingPongPool) (hInv : PoolInv p) (i : Fin 2) :
    PoolInv (p.release i) := by
  unfold PingPongPool.release
  by_cases h : p.slot i = BufState.draining
  · rw [if_pos h]
    have hInv1 : PoolInv
        { p with slot := Function.update p.slot i BufState.free
                 relCount := Function.update p.relCount i (p.relCount i + 1) } := by
      constructor
      · exact hInv.trace_alt
      · exact hInv.turn_eq
      · exact hInv.count_eq
      · intro j hj
        by_cases hji : j = i
        · rw [hji]
          show p.armCount i = Function.update p.relCount i (p.relCount i + 1) i
          rw [Function.update_same]
          exact hInv.slot_busy i (by rw [h]; decide)
        · have hpj : p.slot j = BufState.free := by
            have hvj : Function.update p.slot i BufState.free j = BufState.free := hj
            rwa [Function.update_noteq hji] at hvj
          show p.armCount j = Function.update p.relCount i (p.relCount i + 1) j
          rw [Function.update_noteq hji]
          exact hInv.slot_free j hpj
      · intro j hj
        by_cases hji : j = i
        · rw [hji] at hj
          have hvj : Function.update p.slot i BufState.free i ≠ BufState.free := hj
          rw [Function.update_same] at hvj
          exact absurd rfl hvj
        · have hpj : p.slot j ≠ BufState.free := by
            intro hjf
            refine hj ?_
            show Function.update p.slot i BufState.free j = BufState.free
            rwa [Function.update_noteq hji]
          show p.armCount j = Function.update p.relCount i (p.relCount i + 1) j + 1
          rw [Function.update_noteq hji]
          exact hInv.slot_busy j hpj
    refine rearm_inv _ hInv1 i ?_
    show Function.update p.slot i BufState.free i = BufState.free
    exact Function.update_same ..
  · rw [if_neg h]
    exact hInv

lemma step_inv (p : PingPongPool) (hInv : PoolInv p) (op : PoolOp) :
    PoolInv (p.step op) := by
  cases op with
  | acquire =>
    show PoolInv p.acquireForHardware
    unfold PingPongPool.acquireForHardware
    by_cases h : p.slot p.turn = BufState.free
    · rw [if_pos h]
      exact armTurn_inv p hInv h
    · rw [if_neg h]
      exact hInv
  | markReady i => exact markReady_inv p hInv i
  | takeReady i => exact takeReady_inv p hInv i
  | release i => exact release_inv p hInv i

lemma init_inv : PoolInv PingPongPool.init := by
  constructor
  · rfl
  · rfl
  · intro i
    rfl
  · intro i _
    rfl
  · intro i h
    exact absurd rfl h

lemma run_inv (ops : List PoolOp) (p : PingPongPool) (hInv : PoolInv p) :
    PoolInv (p.run ops) := by
  induction ops generalizing p with
  | nil => exact hInv
  | cons op rest ih => exact ih (p.step op) (step_inv p hInv op)

/-! ## Claim C1: strict ping-pong alternation of hardware buffers -/

/-- C1: in ping-pong mode, for every sequence of pool operations applied
to the initially configured pool, the sequence of slots handed to
hardware by `acquire_for_hardware` (and by the immediate re-arm in
`release`) is the strict alternation 0, 1, 0, 1, … regardless of how
fast the caller drains and releases buffers, and every slot is handed to
hardware at most once more than it has been released: a slot is re-armed
for hardware only after `release()` has been called on it. -/
theorem c1_pingpong_strict_alternation (ops : List PoolOp) :
    (PingPongPool.init.run ops).armTrace =
      altSeq (PingPongPool.init.run ops).armTrace.length ∧
    ∀ i : Fin 2,
      countSlot i (PingPongPool.init.run ops).armTrace ≤
        (PingPongPool.init.run ops).relCount i + 1 := by
  have h := run_inv ops PingPongPool.init init_inv
  refine ⟨h.trace_alt, fun i => ?_⟩
  rw [h.count_eq i]
  by_cases hf : (PingPongPool.init.run ops).slot i = BufState.free
  · rw [h.slot_free i hf]
    omega
  · rw [h.slot_busy i hf]

lemma chan_step_inv (c : Channel)
    (h : c.resolved.map Prod.fst ++ c.pending = c.issued) (op : ChanOp) :
    (c.step op).resolved.map Prod.fst ++ (c.step op).pending = (c.step op).issued := by
  cases op with
  | readAsync r =>
    show (c.readAsync r).resolved.map Prod.fst ++ (c.readAsync r).pending =
      (c.readAsync r).issued
    unfold Channel.readAsync
    by_cases hp : c.pending = []
    · rw [if_pos hp]
      cases hb : c.readyBufs with
      | nil =>
        simp only []
        rw [← h, hp]
        simp
      | cons b bs =>
        simp only []
        rw [List.map_append, ← h, hp]
        simp
    · rw [if_neg hp]
      rw [← h]
      simp
  | completion b =>
    show (c.completion b).resolved.map Prod.fst ++ (c.completion b).pending =
      (c.completion b).issued
    unfold Channel.completion
    cases hp : c.pending with
    | nil =>
      simp only []
      rw [← h, hp]
    | cons r rest =>
      cases hb : c.readyBufs with
      | nil =>
        simp only []
        rw [List.map_append, ← h, hp]
        simp
      | cons b0 bs =>
        simp only []
        rw [List.map_append, ← h, hp]
        simp

lemma chan_run_inv (ops : List ChanOp) (c : Channel)
    (h : c.resolved.map Prod.fst ++ c.pending = c.issued) :
    (c.run ops).resolved.map Prod.fst ++ (c.run ops).pending = (c.run ops).issued := by
  induction ops generalizing c with
  | nil => exact h
  | cons op rest ih => exact ih (c.step op) (chan_step_inv c h op)

/-! ## Claim C2: FIFO resolution of asynchronous reads -/

/-- C2: for every sequence of channel events from the initial channel,
the ids of the resolved requests in resolution order, followed by the
still-pending ids in queue order, equal the ids in issue order; hence
the k-th request to resolve is always the k-th request issued — no later
request resolves before an earlier one on the same channel, even when a
Ready buffer is already available when a later request is issued. -/
theorem c2_read_async_fifo (ops : List ChanOp) :
    (Channel.init.run ops).resolved.map Prod.fst ++ (Channel.init.run ops).pending =
      (Channel.init.run ops).issued ∧
    (Channel.init.run ops).resolved.map Prod.fst =
      (Channel.init.run ops).issued.take
        ((Channel.init.run ops).resolved.map Prod.fst).length := by
  have h := chan_run_inv ops Channel.init rfl
  refine ⟨h, ?_⟩
  rw [← h, List.take_left]

/-- C9: because `PI_I2S_OPT_PINGPONG` is the value 0 on the bit position
of `PI_I2S_OPT_MEM_SLAB`, every options byte selects exactly one of slab
mode and ping-pong mode (for the device options and likewise for the
per-channel options), and the all-zero options byte selects ping-pong,
non-TDM mode: ping-pong is the implicit default. -/
theorem c9_mode_exclusive_and_default :
    (∀ o : Nat, (optIsSlab o ∧ ¬ optIsPingpong o) ∨ (optIsPingpong o ∧ ¬ optIsSlab o)) ∧
    (∀ o : Nat, (chOptIsSlab o ∧ ¬ chOptIsPingpong o) ∨
      (chOptIsPingpong o ∧ ¬ chOptIsSlab o)) ∧
    optIsPingpong 0 ∧ ¬ optIsTdm 0 ∧ chOptIsPingpong 0 := by
  refine ⟨?_, ?_, by decide, by decide, by decide⟩
  · intro o
    have h : o &&& 1 = o % 2 := Nat.and_one_is_mod o
    simp only [optIsSlab, optIsPingpong, PI_I2S_OPT_MEM_SLAB, PI_I2S_OPT_PINGPONG,
      Nat.shiftLeft_eq, pow_zero, mul_one, h]
    omega
  · intro o
    have h : o &&& 1 = o % 2 := Nat.and_one_is_mod o
    simp only [chOptIsSlab, chOptIsPingpong, PI_I2S_CH_OPT_MEM_SLAB, PI_I2S_CH_OPT_PINGPONG,
      Nat.shiftLeft_eq, pow_zero, mul_one, h]
    omega

/-! ## Claim C10: disjointness of the per-channel format bitfields -/

/-- C10: the three per-channel format bitfields of `pi_i2s_ch_fmt_t` —
data order (mask bit 0), data alignment (mask bit 1) and sign extension
(mask bit 2) — have pairwise disjoint masks, and OR-ing one value chosen
from each field then extracting any field with its mask returns exactly
the chosen value, independently of the other two. -/
theorem c10_ch_fmt_fields_independent :
    PI_I2S_CH_FMT_DATA_ORDER_MASK &&& PI_I2S_CH_FMT_DATA_ALIGN_MASK = 0 ∧
    PI_I2S_CH_FMT_DATA_ORDER_MASK &&& PI_I2S_CH_FMT_DATA_SIGN_MASK = 0 ∧
    PI_I2S_CH_FMT_DATA_ALIGN_MASK &&& PI_I2S_CH_FMT_DATA_SIGN_MASK = 0 ∧
    ∀ o a s : Nat,
      (o = PI_I2S_CH_FMT_DATA_ORDER_MSB ∨ o = PI_I2S_CH_FMT_DATA_ORDER_LSB) →
      (a = PI_I2S_CH_FMT_DATA_ALIGN_LEFT ∨ a = PI_I2S_CH_FMT_DATA_ALIGN_RIGHT) →
      (s = PI_I2S_CH_FMT_DATA_SIGN_NO_EXTEND ∨ s = PI_I2S_CH_FMT_DATA_SIGN_EXTEND) →
      (o ||| a ||| s) &&& PI_I2S_CH_FMT_DATA_ORDER_MASK = o ∧
      (o ||| a ||| s) &&& PI_I2S_CH_FMT_DATA_ALIGN_MASK = a ∧
      (o ||| a ||| s) &&& PI_I2S_CH_FMT_DATA_SIGN_MASK = s := by
  refine ⟨by decide, by decide, by decide, ?_⟩
  rintro o a s (rfl | rfl) (rfl | rfl) (rfl | rfl) <;> exact ⟨by decide, by decide, by decide⟩

/-- Witness for C10: the fields round-trip at the concrete choice
LSB-first, right-justified, sign-extended. -/
theorem c10_ch_fmt_fields_independent_witness :
    (PI_I2S_CH_FMT_DATA_ORDER_LSB ||| PI_I2S_CH_FMT_DATA_ALIGN_RIGHT |||
      PI_I2S_CH_FMT_DATA_SIGN_EXTEND) &&& PI_I2S_CH_FMT_DATA_ORDER_MASK =
      PI_I2S_CH_FMT_DATA_ORDER_LSB ∧
    (PI_I2S_CH_FMT_DATA_ORDER_LSB ||| PI_I2S_CH_FMT_DATA_ALIGN_RIGHT |||
      PI_I2S_CH_FMT_DATA_SIGN_EXTEND) &&& PI_I2S_CH_FMT_DATA_ALIGN_MASK =
      PI_I2S_CH_FMT_DATA_ALIGN_RIGHT ∧
    (PI_I2S_CH_FMT_DATA_ORDER_LSB ||| PI_I2S_CH_FMT_DATA_ALIGN_RIGHT |||
      PI_I2S_CH_FMT_DATA_SIGN_EXTEND) &&& PI_I2S_CH_FMT_DATA_SIGN_MASK =
      PI_I2S_CH_FMT_DATA_SIGN_EXTEND :=
  c10_ch_fmt_fields_independent.2.2.2 _ _ _ (Or.inr rfl) (Or.inr rfl) (Or.inr rfl)

/-! ## Claim C8: return-code convention across the declared operations -/

/-- C8 counterexample: the claim that every operation of the external
interface reports its outcome as an `int` return code (0 success,
negative error) fails on the header: `pi_i2s_close` and `pi_i2s_setup`
are declared `void` and return no code at all. -/
theorem c8_counterexample_close_returns_void :
    retType ApiOp.devClose = CRet.void ∧ retType ApiOp.setup = CRet.void ∧
    ¬ (∀ op : ApiOp, retType op = CRet.int) := by
  refine ⟨rfl, rfl, fun h => ?_⟩
  have := h ApiOp.devClose
  simp [retType] at this

/-- C8 amended: every operation whose header doc comment documents
return codes is declared to return `int`, with documented success code
0 and a negative documented error code; this covers open, read,
read_async, channel_read, channel_read_async and read_status, while
setup, conf_init and close are declared `void` and ioctl documents no
codes. -/
theorem c8_documented_return_codes (op : ApiOp) (c : Int × Int)
    (h : docCodes op = some c) :
    retType op = CRet.int ∧ c.1 = 0 ∧ c.2 < 0 := by
  cases op <;> simp [docCodes] at h <;>
    simp [retType, ← h]

/-- Witness for C8 amended: `pi_i2s_open` documents codes (0, -1). -/
theorem c8_documented_return_codes_witness :
    retType ApiOp.devOpen = CRet.int ∧ (0 : Int) = 0 ∧ (-1 : Int) < 0 :=
  c8_documented_return_codes ApiOp.devOpen (0, -1) rfl

/-- Witness for C1 at a concrete operation sequence: arm, complete,
drain and release slot 0, then arm again — the trace stays the strict
alternation. -/
theorem c1_pingpong_strict_alternation_witness :
    (PingPongPool.init.run poolOpsEx).armTrace =
      altSeq (PingPongPool.init.run poolOpsEx).armTrace.length ∧
    countSlot 0 (PingPongPool.init.run poolOpsEx).armTrace ≤
      (PingPongPool.init.run poolOpsEx).relCount 0 + 1 :=
  ⟨(c1_pingpong_strict_alternation poolOpsEx).1,
   (c1_pingpong_strict_alternation poolOpsEx).2 0⟩

/-- Witness for C2 at a concrete event sequence: two requests queued
before any completion arrive, then two completions. -/
theorem c2_read_async_fifo_witness :
    (Channel.init.run chanOpsEx).resolved.map Prod.fst ++
      (Channel.init.run chanOpsEx).pending =
      (Channel.init.run chanOpsEx).issued :=
  (c2_read_async_fifo chanOpsEx).1

/-! ## Claim C3: glitch-free stop at a block boundary -/

/-- C3: for a Running device with a block in flight, `stop()` moves the
state to StoppingRequested while the in-flight block stays armed and
nothing new is delivered; no event other than the block completion can
make the state Idle; the completion then delivers that block exactly
once, in full (`blockSize` bytes), and makes the state Idle; a
subsequent `start()` resumes at the stored rotation position — the next
buffer in rotation — rather than at the first buffer. -/
theorem c3_stop_glitch_free (d : Device) (b : Nat)
    (hrun : d.st = DevState.running) (hb : d.inflight = some b) :
    (d.stop).st = DevState.stoppingRequested ∧
    (d.stop).inflight = some b ∧
    (d.stop).delivered = d.delivered ∧
    (∀ op : DevOp, op ≠ DevOp.completion →
      ((d.stop).stepOp op).st ≠ DevState.idle) ∧
    ((d.stop).completion).st = DevState.idle ∧
    ((d.stop).completion).delivered = d.delivered ++ [(b, d.blockSize)] ∧
    ((d.stop).completion).inflight = none ∧
    ((d.stop).completion).pos = d.pos ∧
    (d.configured = true →
      (((d.stop).completion).start).st = DevState.running ∧
      (((d.stop).completion).start).inflight = some d.pos) := by
  rcases d with ⟨st, pos, nbuf, infl, dels, bs, cfg⟩
  obtain rfl : st = DevState.running := hrun
  obtain rfl : infl = some b := hb
  refine ⟨rfl, rfl, rfl, ?_, rfl, rfl, rfl, rfl, ?_⟩
  · intro op hop
    cases op with
    | start => simp [Device.stepOp, Device.stop, Device.start]
    | stop => simp [Device.stepOp, Device.stop]
    | completion => exact absurd rfl hop
  · intro hcfg
    obtain rfl : cfg = true := hcfg
    exact ⟨rfl, rfl⟩

/-- Witness for C3: a Running device with buffer 0 in flight and
position 1 next; after stop and its completion, the block is delivered
in full and a new start arms buffer 1, not buffer 0. -/
theorem c3_stop_glitch_free_witness :
    (devRunningEx.stop).st = DevState.stoppingRequested ∧
    ((devRunningEx.stop).completion).st = DevState.idle ∧
    ((devRunningEx.stop).completion).delivered = [(0, 64)] ∧
    (((devRunningEx.stop).completion).start).inflight = some 1 := by
  have h := c3_stop_glitch_free devRunningEx 0 rfl rfl
  exact ⟨h.1, h.2.2.2.2.1, h.2.2.2.2.2.1, (h.2.2.2.2.2.2.2.2 rfl).2⟩

/-! ## Claim C7: redundant start/stop commands are no-ops -/

/-- C7: `start()` on a Running device leaves the entire device state
unchanged (idempotent), and `stop()` on an Idle device likewise leaves
the entire state unchanged. -/
theorem c7_redundant_commands_noop (d : Device) :
    (d.st = DevState.running → d.start = d) ∧
    (d.st = DevState.idle → d.stop = d) := by
  constructor
  · intro h
    unfold Device.start
    rw [h]
  · intro h
    unfold Device.stop
    rw [h]

/-- Witness for C7: start on a concrete Running device and stop on a
concrete Idle device change nothing. -/
theorem c7_redundant_commands_noop_witness :
    Device.start devRunningEx = devRunningEx ∧
    Device.stop devIdleEx = devIdleEx :=
  ⟨(c7_redundant_commands_noop devRunningEx).1 rfl,
   (c7_redundant_commands_noop devIdleEx).2 rfl⟩

/-! ## Claim C5: block size must be a positive multiple of frame size -/

/-- C5: every configuration accepted by `open` has a block size that is
a positive multiple of the frame size (channels × word-size-in-bytes),
and `open` rejects every configuration violating this with the
block-size ValidationError. -/
theorem c5_open_block_size_multiple (c : Conf) :
    (∀ s : OpenState, pi_i2s_open c = Except.ok s →
      0 < c.block_size ∧ c.block_size % frameSize c.channels c.word_size = 0) ∧
    (¬ (0 < c.block_size ∧ c.block_size % frameSize c.channels c.word_size = 0) →
      pi_i2s_open c = Except.error ValErr.nonMultipleBlockSize) := by
  constructor
  · intro s hs
    by_cases h : 0 < c.block_size ∧ c.block_size % c.frame = 0
    · exact h
    · exfalso
      unfold pi_i2s_open validate at hs
      rw [if_pos h] at hs
      simp at hs
  · intro h
    have h' : ¬ (0 < c.block_size ∧ c.block_size % c.frame = 0) := h
    unfold pi_i2s_open validate
    rw [if_pos h']

/-- Witness for C5: block size 33 with a 4-byte frame is rejected with
the block-size error; block size 64 with a 4-byte frame satisfies the
divisibility. -/
theorem c5_open_block_size_multiple_witness :
    pi_i2s_open confBadBlockEx = Except.error ValErr.nonMultipleBlockSize ∧
    (0 < confOkEx.block_size ∧
      confOkEx.block_size % frameSize confOkEx.channels confOkEx.word_size = 0) :=
  ⟨(c5_open_block_size_multiple confBadBlockEx).2 (by decide),
   (c5_open_block_size_multiple confOkEx).1 (mkState confOkEx) rfl⟩

/-! ## Claim C6: misaligned buffer addresses are rejected at open -/

/-- C6: every configuration containing a buffer address that is not a
multiple of 4 makes `open` fail with a ValidationError and allocate no
internal state; when the earlier validator checks pass the error is
specifically MisalignedBuffer. -/
theorem c6_misaligned_buffer_rejected (c : Conf) (a : Nat)
    (ha : a ∈ c.bufAddrs) (hmis : a % 4 ≠ 0) :
    (∃ e : ValErr, pi_i2s_open c = Except.error e) ∧
    (∀ s : OpenState, pi_i2s_open c ≠ Except.ok s) ∧
    ((0 < c.block_size ∧ c.block_size % c.frame = 0) →
      ¬ (optIsSlab c.options ∧ c.slab_addrs.length < 2) →
      pi_i2s_open c = Except.error ValErr.misalignedBuffer) := by
  have hal : ¬ (∀ x ∈ c.bufAddrs, x % 4 = 0) := fun hall => hmis (hall a ha)
  have key : (0 < c.block_size ∧ c.block_size % c.frame = 0) →
      ¬ (optIsSlab c.options ∧ c.slab_addrs.length < 2) →
      pi_i2s_open c = Except.error ValErr.misalignedBuffer := by
    intro h1 h2
    unfold pi_i2s_open validate
    rw [if_neg (not_not_intro h1), if_neg h2, if_pos hal]
  have herr : ∃ e : ValErr, pi_i2s_open c = Except.error e := by
    by_cases h1 : 0 < c.block_size ∧ c.block_size % c.frame = 0
    · by_cases h2 : optIsSlab c.options ∧ c.slab_addrs.length < 2
      · refine ⟨ValErr.insufficientSlabBlocks, ?_⟩
        unfold pi_i2s_open validate
        rw [if_neg (not_not_intro h1), if_pos h2]
      · exact ⟨ValErr.misalignedBuffer, key h1 h2⟩
    · refine ⟨ValErr.nonMultipleBlockSize, ?_⟩
      unfold pi_i2s_open validate
      rw [if_pos h1]
  refine ⟨herr, ?_, key⟩
  intro s hs
  obtain ⟨e, he⟩ := herr
  rw [he] at hs
  exact Except.noConfusion hs

/-- Witness for C6: the configuration whose second ping-pong buffer
sits at the unaligned address 0x1002 is rejected with
MisalignedBuffer. -/
theorem c6_misaligned_buffer_rejected_witness :
    pi_i2s_open confMisalignedEx = Except.error ValErr.misalignedBuffer := by
  have h := c6_misaligned_buffer_rejected confMisalignedEx 0x1002
    (by decide) (by decide)
  exact h.2.2 (by decide) (by decide)

/-! ## Claim C4: close resolves every pending request -/

lemma resolveLoop_eq (l : List Nat) (res : List (Nat × Resolution)) :
    resolveLoop res l = res ++ l.map (fun r => (r, Resolution.deviceClosed)) := by
  induction l generalizing res with
  | nil => simp [resolveLoop]
  | cons r rest ih => simp [resolveLoop, ih]

/-- C4: `close()` on an open device with K still-queued asynchronous
Notification Requests resolves all K of them with the DeviceClosed
error, in order, leaves no request unresolved, and leaves zero buffers
Ready or ArmedForHardware. -/
theorem c4_close_resolves_all_pending (s : OpenState) :
    (pi_i2s_close s).chan.resolved =
      s.chan.resolved ++ s.chan.pending.map (fun r => (r, Resolution.deviceClosed)) ∧
    (∀ r ∈ s.chan.pending,
      (r, Resolution.deviceClosed) ∈ (pi_i2s_close s).chan.resolved) ∧
    (pi_i2s_close s).chan.pending = [] ∧
    (pi_i2s_close s).chan.resolved.length =
      s.chan.resolved.length + s.chan.pending.length ∧
    (pi_i2s_close s).chan.readyBufs = [] ∧
    (pi_i2s_close s).dev.inflight = none ∧
    (pi_i2s_close s).dev.st = DevState.idle := by
  have hres : (pi_i2s_close s).chan.resolved =
      s.chan.resolved ++ s.chan.pending.map (fun r => (r, Resolution.deviceClosed)) :=
    resolveLoop_eq s.chan.pending s.chan.resolved
  refine ⟨hres, ?_, rfl, ?_, rfl, rfl, rfl⟩
  · intro r hr
    rw [hres]
    exact List.mem_append_right _
      (List.mem_map_of_mem (fun r => (r, Resolution.deviceClosed)) hr)
  · rw [hres]
    simp

/-- Witness for C4: closing a device with requests 5 and 6 queued and a
Ready buffer resolves both with DeviceClosed and empties the queues. -/
theorem c4_close_resolves_all_pending_witness :
    (pi_i2s_close openStateEx).chan.pending = [] ∧
    (pi_i2s_close openStateEx).chan.readyBufs = [] ∧
    ((5 : Nat), Resolution.deviceClosed) ∈ (pi_i2s_close openStateEx).chan.resolved ∧
    (pi_i2s_close openStateEx).dev.st = DevState.idle := by
  have h := c4_close_resolves_all_pending openStateEx
  exact ⟨h.2.2.1, h.2.2.2.2.1, h.2.1 5 (by decide), h.2.2.2.2.2.2⟩

/-- Witness for C9 at the all-zero options byte. -/
theorem c9_mode_exclusive_and_default_witness :
    optIsPingpong 0 ∧ ¬ optIsTdm 0 :=
  ⟨c9_mode_exclusive_and_default.2.2.1,
   c9_mode_exclusive_and_default.2.2.2.1⟩

end PmsisI2s
